import Mathlib

/-!
Shallow embedding of the per-frame simulation core of the Neon Velocity
lane-dodging game (source: `src/unnamed/part_001`, component `App`, in
particular the `update` callback, `startGame`, and the spawn / collision /
difficulty blocks inside `update`).

Conventions of the embedding:
* JavaScript numbers on the game-logic paths hold exact small rationals
  (integer constants, decimal literals, and sums/products/divisions
  thereof), so positions, speeds, timers in frames, and times in ms are
  modelled as `ℚ`; `score` and `coins` are `ℕ` (only ever incremented by
  integer amounts from 0).
* `Math.random()` draws are passed in as explicit `ℚ` parameters
  (the source consumes one draw per decision point).
* `Math.sin(...)`-derived oscillation factors (the slide drift
  `Math.sin(time / 100) * 3` and the gravity time factor
  `0.8 + Math.sin(time / 250) * 0.4`) are passed in as explicit `ℚ`
  parameters, since the claims quantify over every magnitude of these.
* Cosmetic-only fields (`color`) are omitted: no game-logic branch reads
  them.
* React state setters inside one tick are modelled by explicit state
  passing in the order the source executes them.
-/

namespace NeonVelocity

/-- Source line 11: `const CANVAS_WIDTH = 400`. -/
def CANVAS_WIDTH : ℚ := 400

/-- Source line 12: `const CANVAS_HEIGHT = 600`. -/
def CANVAS_HEIGHT : ℚ := 600

/-- Source line 13: `const CAR_WIDTH = 40`. -/
def CAR_WIDTH : ℚ := 40

/-- Source line 14: `const CAR_HEIGHT = 70`. -/
def CAR_HEIGHT : ℚ := 70

/-- Source line 16: `const INITIAL_ENEMY_SPEED = 7`. -/
def INITIAL_ENEMY_SPEED : ℚ := 7

/-- Source line 17: `const ENEMY_SPAWN_RATE = 1200` (ms). -/
def ENEMY_SPAWN_RATE : ℚ := 1200

/-- Source line 44: `type ObstacleType = 'CAR' | 'BARRIER' | 'OIL' | 'LASER' | 'GRAVITY' | 'PLATFORM' | 'CHASER'`. -/
inductive ObstacleType where
  | CAR | BARRIER | OIL | LASER | GRAVITY | PLATFORM | CHASER
deriving DecidableEq, Repr

/-- Source line 43: `type PowerUpType = 'SHIELD' | 'BOOST' | 'MULTIPLIER' | 'COIN'`. -/
inductive PowerUpType where
  | SHIELD | BOOST | MULTIPLIER | COIN
deriving DecidableEq, Repr

/-- Source line 54: `type GameState = 'START' | 'PLAYING' | 'GAMEOVER' | 'SETTINGS'`. -/
inductive GameState where
  | START | PLAYING | GAMEOVER | SETTINGS
deriving DecidableEq, Repr

/-- Source line 55: `type DifficultyLevel = 'EASY' | 'NORMAL' | 'HARD'`. -/
inductive DifficultyLevel where
  | EASY | NORMAL | HARD
deriving DecidableEq, Repr

/-- Source line 46: `type TireType = 'STANDARD' | 'GRIP' | 'DRIFT'`. -/
inductive TireType where
  | STANDARD | GRIP | DRIFT
deriving DecidableEq, Repr

/-- Source lines 81-89: `interface Enemy` — position, dimensions, kind tag,
per-kind speed, and the kind-specific optional fields (`vx`/`direction`
for barriers, `timer`/`active` for laser and platform, `pull` for gravity
fields). Optional fields are given defaults; each is read only under the
kind guard the source also uses. -/
structure Enemy where
  x : ℚ
  y : ℚ
  width : ℚ
  height : ℚ
  type : ObstacleType
  speed : ℚ
  vx : ℚ := 0
  direction : ℚ := 0
  timer : ℕ := 0
  active : Bool := false
  pull : ℚ := 0
deriving DecidableEq, Repr

/-- Source lines 49-52: `interface PowerUp` — a collectible (coin or
timed power-up) with position, dimensions, kind and downward speed. -/
structure PowerUp where
  x : ℚ
  y : ℚ
  width : ℚ
  height : ℚ
  type : PowerUpType
  speed : ℚ
deriving DecidableEq, Repr

/-- Source lines 178-184: the player is a `GameObject` with fixed
dimensions `CAR_WIDTH × CAR_HEIGHT`; only `x` is mutated during a run. -/
structure Player where
  x : ℚ
  y : ℚ
  width : ℚ
  height : ℚ
deriving DecidableEq, Repr

/-- Source lines 178-184: initial player, `x = CANVAS_WIDTH / 2 - CAR_WIDTH / 2`,
`y = CANVAS_HEIGHT - CAR_HEIGHT - 40`. -/
def initialPlayer : Player :=
  { x := CANVAS_WIDTH / 2 - CAR_WIDTH / 2
    y := CANVAS_HEIGHT - CAR_HEIGHT - 40
    width := CAR_WIDTH
    height := CAR_HEIGHT }

/-! Player movement (update step 1, source lines 281-313) -/

/-- The clamp `Math.max(0, Math.min(CANVAS_WIDTH - CAR_WIDTH, x))` used at
source lines 299 and 310. -/
def clampX (x : ℚ) : ℚ := max 0 (min (CANVAS_WIDTH - CAR_WIDTH) x)

/-- Source line 282: `const basePlayerSpeed = tireType === 'GRIP' ? 9 :
tireType === 'DRIFT' ? 11 : 7`. -/
def basePlayerSpeed (tire : TireType) : ℚ :=
  match tire with
  | .GRIP => 9
  | .DRIFT => 11
  | .STANDARD => 7

/-- Source line 283: `const currentSpeed = basePlayerSpeed * (activeBoost > 0 ? 1.5 : 1)`. -/
def currentSpeed (tire : TireType) (activeBoost : ℚ) : ℚ :=
  basePlayerSpeed tire * (if activeBoost > 0 then 3/2 else 1)

/-- Source lines 287-300: steering / sliding drift update of the player's
x. While not sliding, an active left intent applies
`x := max(0, x - speed)` and then an active right intent applies
`x := min(CANVAS_WIDTH - CAR_WIDTH, x + speed)` (left processed before
right, lines 290-295). While the slide timer is positive the intents are
ignored and `x` drifts by the sinusoid value (`Math.sin(time/100) * 3`,
passed here as `drift`) and is clamped to the track (lines 296-300). -/
def steerPlayer (x speed : ℚ) (moveLeft moveRight : Bool) (isSliding drift : ℚ) : ℚ :=
  if (moveLeft || moveRight) && isSliding = 0 then
    let x1 := if moveLeft then max 0 (x - speed) else x
    if moveRight then min (CANVAS_WIDTH - CAR_WIDTH) (x1 + speed) else x1
  else if isSliding > 0 then clampX (x + drift)
  else x

/-- Source lines 302-313: every `GRAVITY` enemy whose vertical span
overlaps the player's adds `pull * timeFactor` to the player's x, clamped
to the track immediately after each field. `pulls` lists, in collection
order, the value `enemy.pull * timeFactor` for exactly the gravity
enemies whose y-span test at line 306 passes this tick. -/
def applyGravityPulls (x : ℚ) (pulls : List ℚ) : ℚ :=
  pulls.foldl (fun a p => clampX (a + p)) x

/-- Update step 1 in full (source lines 281-313): steering/slide update
followed by the gravity-pull pass. -/
def movementStep (x : ℚ) (tire : TireType) (activeBoost : ℚ)
    (moveLeft moveRight : Bool) (isSliding drift : ℚ) (pulls : List ℚ) : ℚ :=
  applyGravityPulls
    (steerPlayer x (currentSpeed tire activeBoost) moveLeft moveRight isSliding drift)
    pulls

/-! Survival coin reward (update step 0, source lines 271-279) -/

/-- Source lines 271-279: if `time - lastCoinRewardTime > 5000` the coin
total is incremented by 1 and the reward clock is set to `time`;
otherwise nothing changes. Returns (new coin total, new reward clock). -/
def survivalCoinStep (time lastCoinRewardTime : ℚ) (coins : ℕ) : ℕ × ℚ :=
  if time - lastCoinRewardTime > 5000 then (coins + 1, time)
  else (coins, lastCoinRewardTime)

/-! Difficulty (source lines 238 and 562-564) -/

/-- Source line 238 (`startGame`): `setDifficulty(difficultyLevel === 'EASY' ?
0.7 : difficultyLevel === 'HARD' ? 1.5 : 1)` — the difficulty value a run
starts with. -/
def startDifficulty (lvl : DifficultyLevel) : ℚ :=
  match lvl with
  | .EASY => 7/10
  | .HARD => 3/2
  | .NORMAL => 1

/-- Source line 563: `const baseDiff = difficultyLevel === 'EASY' ? 1.2 :
difficultyLevel === 'HARD' ? 3.5 : 2.5` — the base used by the per-tick
difficulty recomputation. -/
def baseDiff (lvl : DifficultyLevel) : ℚ :=
  match lvl with
  | .EASY => 6/5
  | .HARD => 7/2
  | .NORMAL => 5/2

/-- Source line 564: `setDifficulty(baseDiff + Math.floor(score / 100) * 0.35)`. -/
def difficultyFormula (lvl : DifficultyLevel) (score : ℕ) : ℚ :=
  baseDiff lvl + (score / 100 : ℕ) * (7/20)

/-- The (score, difficulty) fragment of the run state. -/
structure ScoreDiffState where
  score : ℕ
  difficulty : ℚ
deriving DecidableEq, Repr

/-- Source lines 236-238 (`startGame`): score reset to 0, difficulty set
to the level's start value. -/
def startScoreDiff (lvl : DifficultyLevel) : ScoreDiffState :=
  { score := 0, difficulty := startDifficulty lvl }

/-- The effect of one `update` tick on (score, difficulty): the tick
accrues `delta ≥ 0` points via queued `setScore(s => s + ...)` updates,
while step 6 (line 564) recomputes difficulty from the closure's `score`,
i.e. from the score the tick started with. -/
def tickScoreDiff (lvl : DifficultyLevel) (delta : ℕ) (st : ScoreDiffState) : ScoreDiffState :=
  { score := st.score + delta, difficulty := difficultyFormula lvl st.score }

/-! Laser / platform toggle timers (source lines 488-504) -/

/-- Source lines 489-495 and 498-504: the shared toggle pattern
`timer += 1; if (timer > period) { active = !active; timer = 0 }`,
with `period = 60` for lasers and `period = 40` for platforms. -/
def toggleTimer (period : ℕ) (s : ℕ × Bool) : ℕ × Bool :=
  if s.1 + 1 > period then (0, !s.2) else (s.1 + 1, s.2)

/-- Source lines 489-495: the laser's per-tick timer/active update. -/
def laserTick : ℕ × Bool → ℕ × Bool := toggleTimer 60

/-- Source lines 498-504: the platform's per-tick timer/active update. -/
def platformTick : ℕ × Bool → ℕ × Bool := toggleTimer 40

/-! Spawning (update step 2, source lines 315-449) -/

/-- Source line 316: `const spawnInterval = (ENEMY_SPAWN_RATE / difficulty) *
(activeBoost > 0 ? 0.5 : 1)`. -/
def spawnInterval (difficulty activeBoost : ℚ) : ℚ :=
  ENEMY_SPAWN_RATE / difficulty * (if activeBoost > 0 then 1/2 else 1)

/-- Source line 318: `const spawnCount = difficulty > 1.5 && Math.random() >
0.5 ? 2 : 1`, the coin-flip draw passed as `countRand`. -/
def spawnCount (difficulty countRand : ℚ) : ℕ :=
  if difficulty > 3/2 ∧ countRand > 1/2 then 2 else 1

/-- Either kind of spawned entity (the source pushes onto
`powerUpsRef` or `enemiesRef` according to the branch taken). -/
inductive Spawned where
  | pu (p : PowerUp)
  | en (e : Enemy)
deriving DecidableEq, Repr

/-- Source lines 335-345: the coin branch (`rand < 0.4`). -/
def spawnCoin (x difficulty : ℚ) : PowerUp :=
  { x := x + (CAR_WIDTH - 25) / 2
    y := -CAR_HEIGHT
    width := 25
    height := 25
    type := .COIN
    speed := INITIAL_ENEMY_SPEED * difficulty }

/-- Source lines 346-358: the power-up branch (`i === 0 && rand < 0.25`);
`puRand` is the `Math.random()` draw of line 349 selecting among
`['SHIELD', 'BOOST', 'MULTIPLIER']` via `types[Math.floor(puRand * 3)]`. -/
def spawnPowerUp (x difficulty puRand : ℚ) : PowerUp :=
  { x := x
    y := -CAR_HEIGHT
    width := 30
    height := 30
    type := if puRand * 3 < 1 then .SHIELD else if puRand * 3 < 2 then .BOOST else .MULTIPLIER
    speed := INITIAL_ENEMY_SPEED * difficulty }

/-- Source lines 359-371: the moving-barrier branch; `bdir` is the
`Math.random() > 0.5 ? 1 : -1` draw of line 370. -/
def spawnBarrier (x difficulty bdir : ℚ) : Enemy :=
  { x := x
    y := -CAR_HEIGHT
    width := CAR_WIDTH * (3/2)
    height := 30
    type := .BARRIER
    speed := INITIAL_ENEMY_SPEED * difficulty * (8/10)
    vx := 2 * difficulty
    direction := bdir }

/-- Source lines 372-382: the oil-slick branch, with its x clamped to
`[10, CANVAS_WIDTH - 110]`. -/
def spawnOil (x difficulty : ℚ) : Enemy :=
  { x := max 10 (min (CANVAS_WIDTH - 110) x)
    y := -CAR_HEIGHT
    width := 100
    height := 50
    type := .OIL
    speed := INITIAL_ENEMY_SPEED * difficulty }

/-- Source lines 383-395: the laser-grid branch — full track width,
`timer: 0, active: false`. -/
def spawnLaser (difficulty : ℚ) : Enemy :=
  { x := 0
    y := -CAR_HEIGHT
    width := CANVAS_WIDTH
    height := 10
    type := .LASER
    speed := INITIAL_ENEMY_SPEED * difficulty * (7/10)
    timer := 0
    active := false }

/-- Source lines 396-409: the gravity-zone branch — full track width;
`pdir` is the `Math.random() > 0.5 ? 1 : -1` draw of line 398 and
`prand` the draw inside `(3 + Math.random() * 3)` of line 399. -/
def spawnGravity (difficulty pdir prand : ℚ) : Enemy :=
  { x := 0
    y := -CAR_HEIGHT
    width := CANVAS_WIDTH
    height := 150
    type := .GRAVITY
    speed := INITIAL_ENEMY_SPEED * difficulty * (6/10)
    pull := pdir * ((3 + prand * 3) * difficulty) }

/-- Source lines 410-422: the holographic-platform branch —
`timer: 0, active: true`. -/
def spawnPlatform (x difficulty : ℚ) : Enemy :=
  { x := x
    y := -CAR_HEIGHT
    width := CAR_WIDTH * (3/2)
    height := 20
    type := .PLATFORM
    speed := INITIAL_ENEMY_SPEED * difficulty
    timer := 0
    active := true }

/-- Source lines 423-434: the chaser-car branch. -/
def spawnChaser (x difficulty : ℚ) : Enemy :=
  { x := x
    y := -CAR_HEIGHT
    width := CAR_WIDTH
    height := CAR_HEIGHT
    type := .CHASER
    speed := INITIAL_ENEMY_SPEED * difficulty * (11/10)
    vx := 0 }

/-- Source lines 435-446: the default standard-car branch. -/
def spawnCar (x difficulty : ℚ) : Enemy :=
  { x := x
    y := -CAR_HEIGHT
    width := CAR_WIDTH
    height := CAR_HEIGHT
    type := .CAR
    speed := INITIAL_ENEMY_SPEED * difficulty }

/-- Source lines 334-446: what slot `i` of a spawn tick creates, as a
function of the slot's placement draw `x` (line 326, after the bounded
separation-retry loop), the kind draw `rand` (line 334) and the current
difficulty; the remaining draws (`bdir`, `pdir`, `prand`, `puRand`) feed
the branch-local randomness. The `else if` chain is translated verbatim,
including each branch's difficulty gate. -/
def spawnSlot (i : ℕ) (x rand difficulty bdir pdir prand puRand : ℚ) : Spawned :=
  if rand < 4/10 then .pu (spawnCoin x difficulty)
  else if i = 0 ∧ rand < 25/100 then .pu (spawnPowerUp x difficulty puRand)
  else if rand < 35/100 ∧ difficulty > 12/10 then .en (spawnBarrier x difficulty bdir)
  else if rand < 3/10 ∧ difficulty > 11/10 then .en (spawnOil x difficulty)
  else if rand < 4/10 ∧ difficulty > 13/10 then .en (spawnLaser difficulty)
  else if rand < 5/10 ∧ difficulty > 14/10 then .en (spawnGravity difficulty pdir prand)
  else if rand < 6/10 ∧ difficulty > 15/10 then .en (spawnPlatform x difficulty)
  else if rand < 7/10 ∧ difficulty > 16/10 then .en (spawnChaser x difficulty)
  else .en (spawnCar x difficulty)

/-- The kind tag of a spawned entity, for stating which kinds the draw
can produce. -/
def Spawned.isObstacleKind (s : Spawned) (k : ObstacleType) : Prop :=
  match s with
  | .pu _ => False
  | .en e => e.type = k

/-- The power-up kind tag of a spawned entity. -/
def Spawned.isPowerUpKind (s : Spawned) (k : PowerUpType) : Prop :=
  match s with
  | .pu p => p.type = k
  | .en _ => False

/-- Source lines 315-449: the whole spawn step of one tick. If
`time - lastSpawnTime > spawnInterval`, spawn `spawnCount` slots (each
slot's draws supplied by the per-slot functions) and set the spawn clock
to `time`; otherwise do nothing. Returns (entities created, new spawn
clock). -/
def spawnStep (time lastSpawnTime difficulty activeBoost countRand : ℚ)
    (xOf randOf bdirOf pdirOf prandOf puRandOf : ℕ → ℚ) : List Spawned × ℚ :=
  if time - lastSpawnTime > spawnInterval difficulty activeBoost then
    ((List.range (spawnCount difficulty countRand)).map fun i =>
      spawnSlot i (xOf i) (randOf i) difficulty (bdirOf i) (pdirOf i) (prandOf i) (puRandOf i),
     time)
  else ([], lastSpawnTime)

/-! Collectible update (update step 3, source lines 451-474) -/

/-- The 4-inequality axis-aligned overlap test the source uses both for
power-ups (lines 454-458) and enemies (lines 514-518). -/
def overlapsP (pl : Player) (x y w h : ℚ) : Prop :=
  pl.x < x + w ∧ pl.x + pl.width > x ∧ pl.y < y + h ∧ pl.y + pl.height > y

instance (pl : Player) (x y w h : ℚ) : Decidable (overlapsP pl x y w h) := by
  unfold overlapsP ; infer_instance

/-- Result of processing one collectible for one tick. -/
structure PowerUpStepOut where
  keep : Bool
  p : PowerUp
  coins : ℕ
  shield : ℚ
  boost : ℚ
  mult : ℚ
deriving DecidableEq, Repr

/-- Source lines 451-474: one collectible's update inside the
`powerUpsRef` filter — advance `y` by `speed`; on overlap with the player
apply the pickup effect (`SHIELD` sets the shield timer to 300, `BOOST`
the boost timer to 200, `MULTIPLIER` the multiplier timer to 400, `COIN`
increments the coin total) and drop the collectible; otherwise keep it
exactly while `y ≤ CANVAS_HEIGHT`. -/
def powerUpStep (pl : Player) (coins : ℕ) (shield boost mult : ℚ) (p : PowerUp) :
    PowerUpStepOut :=
  let p1 : PowerUp := { p with y := p.y + p.speed }
  if overlapsP pl p1.x p1.y p1.width p1.height then
    { keep := false
      p := p1
      coins := if p1.type = .COIN then coins + 1 else coins
      shield := if p1.type = .SHIELD then 300 else shield
      boost := if p1.type = .BOOST then 200 else boost
      mult := if p1.type = .MULTIPLIER then 400 else mult }
  else
    { keep := decide (p1.y ≤ CANVAS_HEIGHT)
      p := p1, coins := coins, shield := shield, boost := boost, mult := mult }

/-! Enemy update and collision (update step 4, source lines 476-554) -/

/-- Source lines 478-511: the pre-collision mutation of one enemy —
vertical advance `y += speed * (activeBoost > 0 ? 1.5 : 1)`, then the
kind-specific behavior: barrier bounce (lines 481-486), laser toggle
(lines 489-495), platform toggle (lines 498-504), chaser pursuit of the
player's x (lines 507-511). -/
def moveEnemy (pl : Player) (difficulty activeBoost : ℚ) (e : Enemy) : Enemy :=
  let e1 : Enemy := { e with y := e.y + e.speed * (if activeBoost > 0 then 3/2 else 1) }
  let e2 : Enemy :=
    if e1.type = .BARRIER then
      let x2 := e1.x + e1.vx * e1.direction
      { e1 with x := x2
                direction := if x2 ≤ 0 ∨ x2 + e1.width ≥ CANVAS_WIDTH then
                    e1.direction * (-1) else e1.direction }
    else e1
  let e3 : Enemy :=
    if e2.type = .LASER then
      { e2 with timer := (toggleTimer 60 (e2.timer, e2.active)).1
                active := (toggleTimer 60 (e2.timer, e2.active)).2 }
    else e2
  let e4 : Enemy :=
    if e3.type = .PLATFORM then
      { e3 with timer := (toggleTimer 40 (e3.timer, e3.active)).1
                active := (toggleTimer 40 (e3.timer, e3.active)).2 }
    else e3
  if e4.type = ObstacleType.CHASER then
    let dx := pl.x - e4.x
    let chaseSpeed := (3/2) * difficulty
    { e4 with x := e4.x + (if dx > 0 then min dx chaseSpeed
                           else if dx < 0 then -(min (-dx) chaseSpeed) else 0) }
  else e4

/-- Result of processing one enemy for one tick: whether the filter keeps
it, its mutated fields, and the run state it leaves behind. -/
structure EnemyStepOut where
  keep : Bool
  enemy : Enemy
  shield : ℚ
  slide : ℚ
  score : ℕ
  state : GameState
deriving DecidableEq, Repr

/-- Source lines 546-553: the scroll-past check at the end of the enemy
filter body — an enemy with `y > CANVAS_HEIGHT` is dropped, awarding
`10 * (activeMultiplier > 0 ? 2 : 1)` points unless its kind is `OIL` or
`GRAVITY`. -/
def enemyPassBottom (e : Enemy) (shield slide mult : ℚ) (score : ℕ) (st : GameState) :
    EnemyStepOut :=
  if e.y > CANVAS_HEIGHT then
    { keep := false, enemy := e, shield := shield, slide := slide
      score := if e.type ≠ .OIL ∧ e.type ≠ .GRAVITY then
          score + 10 * (if mult > 0 then 2 else 1) else score
      state := st }
  else
    { keep := true, enemy := e, shield := shield, slide := slide
      score := score, state := st }

/-- Source lines 477-554: one enemy's update inside the `enemiesRef`
filter — move (lines 478-511), then the overlap test (lines 514-518) with
kind-dependent resolution (lines 520-543): oil sets the slide timer to 60
and keeps the enemy; gravity is never fatal; laser and platform are each
safe while `active` is `false`; otherwise a positive shield timer is
consumed (set to 0) and the enemy dropped, and with no shield `gameOver()`
fires (state becomes `GAMEOVER`) and control falls through to the
scroll-past check (lines 546-553), which also runs when there was no
overlap. -/
def enemyStep (pl : Player) (difficulty activeBoost shield slide mult : ℚ)
    (score : ℕ) (st : GameState) (e : Enemy) : EnemyStepOut :=
  let e1 := moveEnemy pl difficulty activeBoost e
  if overlapsP pl e1.x e1.y e1.width e1.height then
    if e1.type = .OIL then
      { keep := true, enemy := e1, shield := shield, slide := 60, score := score, state := st }
    else if e1.type = .GRAVITY then
      { keep := true, enemy := e1, shield := shield, slide := slide, score := score, state := st }
    else if e1.type = .LASER ∧ e1.active = false then
      { keep := true, enemy := e1, shield := shield, slide := slide, score := score, state := st }
    else if e1.type = .PLATFORM ∧ e1.active = false then
      { keep := true, enemy := e1, shield := shield, slide := slide, score := score, state := st }
    else if shield > 0 then
      { keep := false, enemy := e1, shield := 0, slide := slide, score := score, state := st }
    else
      enemyPassBottom e1 shield slide mult score .GAMEOVER
  else
    enemyPassBottom e1 shield slide mult score st

/-! Helper lemmas -/

theorem clampX_nonneg (x : ℚ) : 0 ≤ clampX x := le_max_left 0 _

theorem clampX_le_width (x : ℚ) : clampX x ≤ CANVAS_WIDTH - CAR_WIDTH := by
  unfold clampX CANVAS_WIDTH CAR_WIDTH
  apply max_le (by norm_num)
  exact min_le_left _ _

theorem basePlayerSpeed_nonneg (tire : TireType) : 0 ≤ basePlayerSpeed tire := by
  cases tire <;> norm_num [basePlayerSpeed]

theorem currentSpeed_nonneg (tire : TireType) (b : ℚ) : 0 ≤ currentSpeed tire b := by
  unfold currentSpeed
  have := basePlayerSpeed_nonneg tire
  split <;> linarith

theorem steerPlayer_mem (x speed : ℚ) (ml mr : Bool) (sl dr : ℚ)
    (hs : 0 ≤ speed) (h0 : 0 ≤ x) (h1 : x ≤ CANVAS_WIDTH - CAR_WIDTH) :
    0 ≤ steerPlayer x speed ml mr sl dr ∧
      steerPlayer x speed ml mr sl dr ≤ CANVAS_WIDTH - CAR_WIDTH := by
  have hW : (0:ℚ) ≤ CANVAS_WIDTH - CAR_WIDTH := by norm_num [CANVAS_WIDTH, CAR_WIDTH]
  unfold steerPlayer
  by_cases hc : ((ml || mr) && decide (sl = 0)) = true
  · rw [if_pos hc]
    cases ml <;> cases mr <;> simp_all
    · linarith
    · linarith
    · have : (0:ℚ) ≤ max 0 (x - speed) := le_max_left _ _
      linarith
  · rw [if_neg hc]
    by_cases hsl : sl > 0
    · rw [if_pos hsl]
      exact ⟨clampX_nonneg _, clampX_le_width _⟩
    · rw [if_neg hsl]
      exact ⟨h0, h1⟩

theorem applyGravityPulls_mem (pulls : List ℚ) (x : ℚ)
    (h0 : 0 ≤ x) (h1 : x ≤ CANVAS_WIDTH - CAR_WIDTH) :
    0 ≤ applyGravityPulls x pulls ∧ applyGravityPulls x pulls ≤ CANVAS_WIDTH - CAR_WIDTH := by
  induction pulls generalizing x with
  | nil => exact ⟨h0, h1⟩
  | cons p ps ih =>
      have hstep : applyGravityPulls x (p :: ps) = applyGravityPulls (clampX (x + p)) ps := rfl
      rw [hstep]
      exact ih _ (clampX_nonneg _) (clampX_le_width _)

theorem toggleTimer_iterate_of_le (p : ℕ) (a : Bool) (k : ℕ) (h : k ≤ p) :
    (toggleTimer p)^[k] (0, a) = (k, a) := by
  induction k with
  | zero => rfl
  | succ n ih =>
      rw [Function.iterate_succ_apply', ih (Nat.le_of_succ_le h)]
      unfold toggleTimer
      simp [Nat.not_lt_of_le h]

theorem toggleTimer_iterate_period (p : ℕ) (a : Bool) :
    (toggleTimer p)^[p + 1] (0, a) = (0, !a) := by
  rw [Function.iterate_succ_apply', toggleTimer_iterate_of_le p a p le_rfl]
  unfold toggleTimer
  simp

theorem enemyPassBottom_state (e : Enemy) (sh sl mu : ℚ) (sc : ℕ) (st : GameState) :
    (enemyPassBottom e sh sl mu sc st).state = st := by
  unfold enemyPassBottom
  split <;> rfl

theorem enemyPassBottom_shield (e : Enemy) (sh sl mu : ℚ) (sc : ℕ) (st : GameState) :
    (enemyPassBottom e sh sl mu sc st).shield = sh := by
  unfold enemyPassBottom
  split <;> rfl

/-! Claim theorems -/

/-- C10 (amended): inside a `PLAYING` tick, the survival reward fires —
incrementing the coin total by exactly 1 and resetting the reward clock
to the tick time — exactly when strictly more than 5000 ms have elapsed
since the last reward; otherwise coins and clock are untouched. -/
theorem survival_coin_reward (time last : ℚ) (coins : ℕ) :
    (time - last > 5000 → survivalCoinStep time last coins = (coins + 1, time)) ∧
      (¬ time - last > 5000 → survivalCoinStep time last coins = (coins, last)) := by
  unfold survivalCoinStep
  constructor
  · intro h ; rw [if_pos h]
  · intro h ; rw [if_neg h]

/-- C10 witness: at `time = 6000`, `last = 0`, 6000 ms have elapsed, so a
coin is granted and the clock moves to 6000. -/
theorem survival_coin_reward_witness :
    survivalCoinStep 6000 0 7 = (7 + 1, 6000) :=
  (survival_coin_reward 6000 0 7).1 (by norm_num)

/-- C10 counterexample: with exactly 5000 ms elapsed (`time = 5000`,
`last = 0`) — "at least 5000 ms" in the claim's words — the code's strict
`>` comparison awards nothing and leaves the reward clock alone. -/
theorem survival_coin_boundary_cex :
    survivalCoinStep 5000 0 7 = (7, 0) ∧ (5000 : ℚ) - 0 ≥ 5000 := by
  constructor
  · unfold survivalCoinStep ; norm_num
  · norm_num

/-- C3 (amended): from any reachable (score, difficulty) pair — the run
start or a pair whose difficulty was computed by the per-tick formula
from an earlier (≤) score — one tick leaves difficulty equal to
`baseDiff level + floor(score / 100) * 0.35` of the tick's starting
score, and never decreases it. The run start itself carries the separate
constant `startDifficulty level` (0.7 / 1 / 1.5), not the formula's base. -/
theorem difficulty_formula_monotone (lvl : DifficultyLevel) (st : ScoreDiffState) (delta : ℕ)
    (h : st = startScoreDiff lvl ∨ ∃ s, s ≤ st.score ∧ st.difficulty = difficultyFormula lvl s) :
    (tickScoreDiff lvl delta st).difficulty = difficultyFormula lvl st.score ∧
      st.difficulty ≤ (tickScoreDiff lvl delta st).difficulty := by
  refine ⟨rfl, ?_⟩
  show st.difficulty ≤ difficultyFormula lvl st.score
  rcases h with h | ⟨s, hs, heq⟩
  · subst h
    show startDifficulty lvl ≤ difficultyFormula lvl 0
    cases lvl <;> norm_num [startDifficulty, difficultyFormula, baseDiff]
  · rw [heq]
    unfold difficultyFormula
    have : ((s / 100 : ℕ) : ℚ) ≤ ((st.score / 100 : ℕ) : ℚ) :=
      Nat.cast_le.mpr (Nat.div_le_div_right hs)
    nlinarith

/-- C3 witness: one tick from the NORMAL run start, earning nothing,
moves difficulty from 1 to `difficultyFormula NORMAL 0 = 2.5` — an
increase, as the theorem demands. -/
theorem difficulty_formula_monotone_witness :
    (tickScoreDiff .NORMAL 0 (startScoreDiff .NORMAL)).difficulty =
        difficultyFormula .NORMAL (startScoreDiff .NORMAL).score ∧
      (startScoreDiff .NORMAL).difficulty ≤
        (tickScoreDiff .NORMAL 0 (startScoreDiff .NORMAL)).difficulty :=
  difficulty_formula_monotone .NORMAL (startScoreDiff .NORMAL) 0 (Or.inl rfl)

/-- C3 counterexample: the run-start state (reachable, score 0, level
NORMAL) holds difficulty 1, while the claimed pure function evaluates to
`baseDiff NORMAL = 2.5` there — so difficulty does not equal
`base(level) + floor(score/step) × increment(level)` at every reachable
state, and the run start does not reset it to the formula's base. -/
theorem run_start_difficulty_cex :
    (startScoreDiff .NORMAL).difficulty = 1 ∧
      difficultyFormula .NORMAL (startScoreDiff .NORMAL).score = 5/2 ∧
      (startScoreDiff .NORMAL).difficulty ≠
        difficultyFormula .NORMAL (startScoreDiff .NORMAL).score := by
  norm_num [startScoreDiff, startDifficulty, difficultyFormula, baseDiff]

/-- C5 (amended): the laser toggles its `active` flag every 61 ticks and
the flicker platform every 41 ticks (`timer` counts up from 0 and the
flip happens on the tick that pushes it past the period), the laser
spawning inactive and the platform spawning active. -/
theorem toggle_period_61_41 (a : Bool) (k : ℕ) (d x : ℚ) :
    (k ≤ 60 → laserTick^[k] (0, a) = (k, a)) ∧
      laserTick^[61] (0, a) = (0, !a) ∧
      (k ≤ 40 → platformTick^[k] (0, a) = (k, a)) ∧
      platformTick^[41] (0, a) = (0, !a) ∧
      (spawnLaser d).timer = 0 ∧ (spawnLaser d).active = false ∧
      (spawnPlatform x d).timer = 0 ∧ (spawnPlatform x d).active = true := by
  refine ⟨fun h => toggleTimer_iterate_of_le 60 a k h,
    toggleTimer_iterate_period 60 a,
    fun h => toggleTimer_iterate_of_le 40 a k h,
    toggleTimer_iterate_period 40 a, rfl, rfl, rfl, rfl⟩

/-- C5 witness: after the full 60 safe ticks a freshly spawned laser has
`timer = 60` and is still inactive; tick 61 flips it on. -/
theorem toggle_period_61_41_witness :
    laserTick^[60] (0, false) = (60, false) ∧ laserTick^[61] (0, false) = (0, !false) :=
  ⟨(toggle_period_61_41 false 60 0 0).1 (by norm_num),
    (toggle_period_61_41 false 60 0 0).2.1⟩

/-- C5 counterexample: a laser spawned with `timer = 0, active = false`
has not toggled after exactly 60 ticks (it toggles on tick 61), and a
platform spawned with `timer = 0, active = true` has not toggled after
exactly 40 ticks (it toggles on tick 41) — refuting the claimed 60- and
40-tick periods. -/
theorem toggle_period_cex :
    laserTick^[60] ((spawnLaser 2).timer, (spawnLaser 2).active) = (60, false) ∧
      laserTick^[61] ((spawnLaser 2).timer, (spawnLaser 2).active) = (0, true) ∧
      platformTick^[40] ((spawnPlatform 0 2).timer, (spawnPlatform 0 2).active) = (40, true) ∧
      platformTick^[41] ((spawnPlatform 0 2).timer, (spawnPlatform 0 2).active) = (0, false) := by
  have h1 : (spawnLaser 2).timer = 0 ∧ (spawnLaser 2).active = false := ⟨rfl, rfl⟩
  have h2 : (spawnPlatform 0 2).timer = 0 ∧ (spawnPlatform 0 2).active = true := ⟨rfl, rfl⟩
  rw [h1.1, h1.2, h2.1, h2.2]
  exact ⟨toggleTimer_iterate_of_le 60 false 60 le_rfl,
    toggleTimer_iterate_period 60 false,
    toggleTimer_iterate_of_le 40 true 40 le_rfl,
    toggleTimer_iterate_period 40 true⟩

/-- C4: after the movement step of a tick — any steer-intent combination,
any slide-timer value, any slide drift, and any finite list of gravity
pulls of any magnitude — the player's x stays inside
`[0, CANVAS_WIDTH - CAR_WIDTH]` provided it started there; the position a
run starts from (also the reset position of `startGame`) satisfies the
bound, so by induction every tick of a run does. -/
theorem player_x_in_track_bounds (x : ℚ) (tire : TireType) (activeBoost : ℚ)
    (moveLeft moveRight : Bool) (isSliding drift : ℚ) (pulls : List ℚ)
    (h0 : 0 ≤ x) (h1 : x ≤ CANVAS_WIDTH - CAR_WIDTH) :
    (0 ≤ movementStep x tire activeBoost moveLeft moveRight isSliding drift pulls ∧
        movementStep x tire activeBoost moveLeft moveRight isSliding drift pulls ≤
          CANVAS_WIDTH - CAR_WIDTH) ∧
      0 ≤ initialPlayer.x ∧ initialPlayer.x ≤ CANVAS_WIDTH - CAR_WIDTH := by
  refine ⟨?_, ?_, ?_⟩
  · unfold movementStep
    have hst := steerPlayer_mem x (currentSpeed tire activeBoost) moveLeft moveRight
      isSliding drift (currentSpeed_nonneg tire activeBoost) h0 h1
    exact applyGravityPulls_mem pulls _ hst.1 hst.2
  · norm_num [initialPlayer, CANVAS_WIDTH, CAR_WIDTH]
  · norm_num [initialPlayer, CANVAS_WIDTH, CAR_WIDTH]

/-- C4 witness: from the track centre, steering right while boosted on
DRIFT tires against two opposing strong gravity pulls, the player stays
inside `[0, 360]`. -/
theorem player_x_in_track_bounds_witness :
    (0 ≤ movementStep 180 .DRIFT 10 false true 0 0 [500, -1000] ∧
        movementStep 180 .DRIFT 10 false true 0 0 [500, -1000] ≤
          CANVAS_WIDTH - CAR_WIDTH) ∧
      0 ≤ initialPlayer.x ∧ initialPlayer.x ≤ CANVAS_WIDTH - CAR_WIDTH :=
  player_x_in_track_bounds 180 .DRIFT 10 false true 0 0 [500, -1000]
    (by norm_num) (by norm_num [CANVAS_WIDTH, CAR_WIDTH])

/-- C1 (code bug): the spawn draw can never create a shield, boost or
multiplier power-up, nor a moving barrier, oil slick or laser grid — at
any difficulty, any slot, and any value of the draws — because those
branches of the `else if` chain at source lines 334-446 demand
`rand < 0.25` / `< 0.35` / `< 0.3` / `< 0.4` yet are only reached after
the coin branch has established `rand ≥ 0.4`. The claim's listed kinds
therefore do not all have a reachable draw. -/
theorem spawn_draw_dead_branches (i : ℕ) (x rand d bdir pdir prand puRand : ℚ) :
    ¬ (spawnSlot i x rand d bdir pdir prand puRand).isPowerUpKind .SHIELD ∧
      ¬ (spawnSlot i x rand d bdir pdir prand puRand).isPowerUpKind .BOOST ∧
      ¬ (spawnSlot i x rand d bdir pdir prand puRand).isPowerUpKind .MULTIPLIER ∧
      ¬ (spawnSlot i x rand d bdir pdir prand puRand).isObstacleKind .BARRIER ∧
      ¬ (spawnSlot i x rand d bdir pdir prand puRand).isObstacleKind .OIL ∧
      ¬ (spawnSlot i x rand d bdir pdir prand puRand).isObstacleKind .LASER := by
  unfold spawnSlot
  split_ifs with h1 h2 h3 h4 h5 h6 h7 h8
  · simp [Spawned.isPowerUpKind, Spawned.isObstacleKind, spawnCoin]
  · exact absurd h2.2 (by intro h ; exact h1 (by linarith))
  · exact absurd h3.1 (by intro h ; exact h1 (by linarith))
  · exact absurd h4.1 (by intro h ; exact h1 (by linarith))
  · exact absurd h5.1 h1
  · simp [Spawned.isPowerUpKind, Spawned.isObstacleKind, spawnGravity]
  · simp [Spawned.isPowerUpKind, Spawned.isObstacleKind, spawnPlatform]
  · simp [Spawned.isPowerUpKind, Spawned.isObstacleKind, spawnChaser]
  · simp [Spawned.isPowerUpKind, Spawned.isObstacleKind, spawnCar]

/-- C6 (amended): every newly spawned entity has initial
`y = -CAR_HEIGHT` (the player-car height, 70) — not minus its own height
— and moves downward at `INITIAL_ENEMY_SPEED × difficulty` with the
kind-specific multiplier (barrier ×0.8, laser ×0.7, gravity ×0.6, chaser
×1.1, the rest ×1); laser grids and gravity fields span the full track
width; flicker platforms and chaser cars take the slot's random x draw
(the spawn code never reads the player's x), and oil slicks clamp the
draw to `[10, CANVAS_WIDTH - 110]`. -/
theorem spawn_geometry (x d bdir pdir prand puRand : ℚ) :
    (spawnCoin x d).y = -CAR_HEIGHT ∧
      (spawnCoin x d).speed = INITIAL_ENEMY_SPEED * d ∧
      (spawnPowerUp x d puRand).y = -CAR_HEIGHT ∧
      (spawnPowerUp x d puRand).speed = INITIAL_ENEMY_SPEED * d ∧
      (spawnBarrier x d bdir).y = -CAR_HEIGHT ∧
      (spawnBarrier x d bdir).speed = INITIAL_ENEMY_SPEED * d * (8/10) ∧
      (spawnOil x d).y = -CAR_HEIGHT ∧
      (spawnOil x d).speed = INITIAL_ENEMY_SPEED * d ∧
      (spawnOil x d).x = max 10 (min (CANVAS_WIDTH - 110) x) ∧
      (spawnLaser d).y = -CAR_HEIGHT ∧
      (spawnLaser d).speed = INITIAL_ENEMY_SPEED * d * (7/10) ∧
      (spawnLaser d).x = 0 ∧ (spawnLaser d).width = CANVAS_WIDTH ∧
      (spawnGravity d pdir prand).y = -CAR_HEIGHT ∧
      (spawnGravity d pdir prand).speed = INITIAL_ENEMY_SPEED * d * (6/10) ∧
      (spawnGravity d pdir prand).x = 0 ∧
      (spawnGravity d pdir prand).width = CANVAS_WIDTH ∧
      (spawnPlatform x d).y = -CAR_HEIGHT ∧
      (spawnPlatform x d).speed = INITIAL_ENEMY_SPEED * d ∧
      (spawnPlatform x d).x = x ∧
      (spawnChaser x d).y = -CAR_HEIGHT ∧
      (spawnChaser x d).speed = INITIAL_ENEMY_SPEED * d * (11/10) ∧
      (spawnChaser x d).x = x ∧
      (spawnCar x d).y = -CAR_HEIGHT ∧
      (spawnCar x d).speed = INITIAL_ENEMY_SPEED * d :=
  ⟨rfl, rfl, rfl, rfl, rfl, rfl, rfl, rfl, rfl, rfl, rfl, rfl, rfl, rfl, rfl, rfl, rfl,
    rfl, rfl, rfl, rfl, rfl, rfl, rfl, rfl⟩

/-- C6 counterexample: a spawned coin has `y = -70` but height 25, so its
initial y is not minus its own height (likewise the gravity field, height
150); and a platform or chaser spawned from slot draw `x = 5` sits at
exactly that draw — the spawn code takes no input from the player's x at
all, so their x is not player-derived. -/
theorem spawn_y_cex :
    (spawnCoin 0 1).y = -70 ∧ (spawnCoin 0 1).height = 25 ∧
      (spawnCoin 0 1).y ≠ -(spawnCoin 0 1).height ∧
      (spawnGravity 1 1 0).y = -70 ∧ (spawnGravity 1 1 0).height = 150 ∧
      (spawnGravity 1 1 0).y ≠ -(spawnGravity 1 1 0).height ∧
      (spawnPlatform 5 1).x = 5 ∧ (spawnChaser 5 1).x = 5 := by
  norm_num [spawnCoin, spawnGravity, spawnPlatform, spawnChaser, CAR_HEIGHT]

/-- C8 (amended): whenever the elapsed time since the last spawn is
STRICTLY greater than `spawnInterval = ENEMY_SPAWN_RATE / difficulty`
(halved while boost is active), the spawn step creates exactly
`spawnCount` entities — 1 or 2, and 2 exactly when difficulty exceeds 1.5
and the 50% coin-flip draw lands above 0.5 — and resets the spawn clock
to the tick time; when the elapsed time is at most the interval the step
is a no-op. -/
theorem spawn_step_policy (time last d boost countRand : ℚ)
    (xOf randOf bdirOf pdirOf prandOf puRandOf : ℕ → ℚ) :
    (time - last > spawnInterval d boost →
        (spawnStep time last d boost countRand xOf randOf bdirOf pdirOf prandOf puRandOf).2
            = time ∧
          (spawnStep time last d boost countRand xOf randOf bdirOf pdirOf prandOf
              puRandOf).1.length = spawnCount d countRand) ∧
      (¬ time - last > spawnInterval d boost →
        spawnStep time last d boost countRand xOf randOf bdirOf pdirOf prandOf puRandOf
          = ([], last)) ∧
      (spawnCount d countRand = 1 ∨ spawnCount d countRand = 2) ∧
      (spawnCount d countRand = 2 ↔ d > 3/2 ∧ countRand > 1/2) ∧
      spawnInterval d boost
        = ENEMY_SPAWN_RATE / d * (if boost > 0 then 1/2 else 1) := by
  refine ⟨fun h => ?_, fun h => ?_, ?_, ?_, rfl⟩
  · unfold spawnStep
    rw [if_pos h]
    simp
  · unfold spawnStep
    rw [if_neg h]
  · unfold spawnCount
    split_ifs <;> simp
  · unfold spawnCount
    split_ifs with h
    · exact iff_of_true rfl h
    · exact iff_of_false (by norm_num) h

/-- C8 witness: with difficulty 2, boost off, last spawn at time 0 and
tick time 700 (interval `1200 / 2 = 600` elapsed), the step fires; with
the coin-flip draw at 0.6 it creates two entities and moves the clock to
700. -/
theorem spawn_step_policy_witness :
    (spawnStep 700 0 2 0 (6/10) (fun _ => 0) (fun _ => 0) (fun _ => 0) (fun _ => 0)
        (fun _ => 0) (fun _ => 0)).2 = 700 ∧
      (spawnStep 700 0 2 0 (6/10) (fun _ => 0) (fun _ => 0) (fun _ => 0) (fun _ => 0)
          (fun _ => 0) (fun _ => 0)).1.length = spawnCount 2 (6/10) :=
  (spawn_step_policy 700 0 2 0 (6/10) (fun _ => 0) (fun _ => 0) (fun _ => 0) (fun _ => 0)
      (fun _ => 0) (fun _ => 0)).1
    (by norm_num [spawnInterval, ENEMY_SPAWN_RATE])

/-- C8 counterexample: at difficulty 1 with boost off the interval is
exactly 1200 ms; a tick arriving with exactly 1200 ms elapsed — "at
least the spawn interval" in the claim's words — spawns nothing and
leaves the spawn clock untouched, because the code compares with a
strict `>`. -/
theorem spawn_interval_boundary_cex :
    (1200 : ℚ) - 0 ≥ spawnInterval 1 0 ∧
      spawnStep 1200 0 1 0 0 (fun _ => 0) (fun _ => 0) (fun _ => 0) (fun _ => 0)
          (fun _ => 0) (fun _ => 0)
        = ([], 0) := by
  constructor
  · norm_num [spawnInterval, ENEMY_SPAWN_RATE]
  · unfold spawnStep
    rw [if_neg (by norm_num [spawnInterval, ENEMY_SPAWN_RATE])]

/-- C7: overlapping a standard car, chaser or barrier while the shield
timer is positive consumes the shield (timer set to 0), removes the
obstacle from the collection, and leaves the state `PLAYING`; with the
shield timer at 0 the state transitions to `GAMEOVER`. -/
theorem shield_collision_resolution (pl : Player) (d b shield slide mult : ℚ)
    (score : ℕ) (e : Enemy)
    (hov : overlapsP pl (moveEnemy pl d b e).x (moveEnemy pl d b e).y
        (moveEnemy pl d b e).width (moveEnemy pl d b e).height)
    (hk : (moveEnemy pl d b e).type = .CAR ∨ (moveEnemy pl d b e).type = .CHASER ∨
      (moveEnemy pl d b e).type = .BARRIER) :
    (shield > 0 →
        (enemyStep pl d b shield slide mult score .PLAYING e).keep = false ∧
          (enemyStep pl d b shield slide mult score .PLAYING e).shield = 0 ∧
          (enemyStep pl d b shield slide mult score .PLAYING e).state = .PLAYING) ∧
      (shield = 0 →
        (enemyStep pl d b shield slide mult score .PLAYING e).state = .GAMEOVER) := by
  unfold enemyStep
  rw [if_pos hov]
  rw [if_neg (by rcases hk with h | h | h <;> simp [h]),
    if_neg (by rcases hk with h | h | h <;> simp [h]),
    if_neg (by rcases hk with h | h | h <;> simp [h]),
    if_neg (by rcases hk with h | h | h <;> simp [h])]
  constructor
  · intro hs
    rw [if_pos hs]
    exact ⟨rfl, rfl, rfl⟩
  · intro hs
    rw [if_neg (by rw [hs] ; norm_num)]
    exact enemyPassBottom_state _ _ _ _ _ _

/-- A standard car positioned to overlap the player after its vertical
advance, used to instantiate the shield-collision theorem. -/
def carHit : Enemy :=
  { x := 180, y := 480, width := CAR_WIDTH, height := CAR_HEIGHT
    type := .CAR, speed := 10 }

/-- C7 witness: the player at the initial position overlapping `carHit`
with 5 frames of shield left — the obstacle is dropped, the shield timer
zeroed, and the run keeps PLAYING. -/
theorem shield_collision_resolution_witness :
    (enemyStep initialPlayer 1 0 5 0 0 0 .PLAYING carHit).keep = false ∧
      (enemyStep initialPlayer 1 0 5 0 0 0 .PLAYING carHit).shield = 0 ∧
      (enemyStep initialPlayer 1 0 5 0 0 0 .PLAYING carHit).state = .PLAYING := by
  have hm : moveEnemy initialPlayer 1 0 carHit =
      { x := 180, y := 490, width := CAR_WIDTH, height := CAR_HEIGHT
        type := .CAR, speed := 10 } := by
    simp [moveEnemy, carHit]
    norm_num
  exact (shield_collision_resolution initialPlayer 1 0 5 0 0 0 carHit
      (by rw [hm]
          norm_num [overlapsP, initialPlayer, CANVAS_WIDTH, CANVAS_HEIGHT,
            CAR_WIDTH, CAR_HEIGHT])
      (by rw [hm]
          exact Or.inl rfl)).1
    (by norm_num)

/-- C2 (amended): a flicker-platform overlap is fatal (subject to shield)
exactly while the platform's `active` flag is TRUE and safe (the player
passes through, the obstacle stays) while it is false — the SAME polarity
as the laser grid, not its inverse; the statement covers both kinds. -/
theorem platform_laser_collision_polarity (pl : Player) (d b shield slide mult : ℚ)
    (score : ℕ) (e : Enemy)
    (hov : overlapsP pl (moveEnemy pl d b e).x (moveEnemy pl d b e).y
        (moveEnemy pl d b e).width (moveEnemy pl d b e).height)
    (hk : (moveEnemy pl d b e).type = .PLATFORM ∨ (moveEnemy pl d b e).type = .LASER) :
    ((moveEnemy pl d b e).active = false →
        (enemyStep pl d b shield slide mult score .PLAYING e).keep = true ∧
          (enemyStep pl d b shield slide mult score .PLAYING e).state = .PLAYING ∧
          (enemyStep pl d b shield slide mult score .PLAYING e).shield = shield) ∧
      ((moveEnemy pl d b e).active = true →
        (shield = 0 →
            (enemyStep pl d b shield slide mult score .PLAYING e).state = .GAMEOVER) ∧
          (shield > 0 →
            (enemyStep pl d b shield slide mult score .PLAYING e).keep = false ∧
              (enemyStep pl d b shield slide mult score .PLAYING e).shield = 0 ∧
              (enemyStep pl d b shield slide mult score .PLAYING e).state = .PLAYING)) := by
  unfold enemyStep
  rw [if_pos hov]
  constructor
  · intro ha
    rcases hk with h | h
    · rw [if_neg (by simp [h]), if_neg (by simp [h]), if_neg (by simp [h]),
        if_pos ⟨h, ha⟩]
      exact ⟨rfl, rfl, rfl⟩
    · rw [if_neg (by simp [h]), if_neg (by simp [h]), if_pos ⟨h, ha⟩]
      exact ⟨rfl, rfl, rfl⟩
  · intro ha
    rw [if_neg (by rcases hk with h | h <;> simp [h]),
      if_neg (by rcases hk with h | h <;> simp [h]),
      if_neg (by simp [ha]), if_neg (by simp [ha])]
    constructor
    · intro hs
      rw [if_neg (by rw [hs] ; norm_num)]
      exact enemyPassBottom_state _ _ _ _ _ _
    · intro hs
      rw [if_pos hs]
      exact ⟨rfl, rfl, rfl⟩

/-- A flicker platform overlapping the player after its advance, with its
`active` flag on (solid). -/
def platformOn : Enemy :=
  { x := 180, y := 480, width := CAR_WIDTH * (3/2), height := 20
    type := .PLATFORM, speed := 10, timer := 0, active := true }

/-- The same platform with its `active` flag off (flickered out). -/
def platformOff : Enemy :=
  { platformOn with active := false }

/-- C2 witness: the amended polarity at a concrete overlap — with the
platform active and no shield the tick ends the run. -/
theorem platform_laser_collision_polarity_witness :
    (enemyStep initialPlayer 1 0 0 0 0 0 .PLAYING platformOn).state = .GAMEOVER := by
  have hm : moveEnemy initialPlayer 1 0 platformOn =
      { x := 180, y := 490, width := CAR_WIDTH * (3/2), height := 20
        type := .PLATFORM, speed := 10, timer := 1, active := true } := by
    simp [moveEnemy, platformOn, toggleTimer]
    norm_num
  exact ((platform_laser_collision_polarity initialPlayer 1 0 0 0 0 0 platformOn
        (by rw [hm]
            norm_num [overlapsP, initialPlayer, CANVAS_WIDTH, CANVAS_HEIGHT,
              CAR_WIDTH, CAR_HEIGHT])
        (by rw [hm]
            exact Or.inl rfl)).2
      (by rw [hm])).1 rfl

/-- C2 counterexample: the player overlapping a flicker platform whose
`active` flag is TRUE dies (state `GAMEOVER`, no shield), and overlapping
one whose flag is FALSE passes through safely (kept obstacle, state
`PLAYING`) — exactly the opposite of the claimed polarity, and the same
polarity as the laser rather than its inverse. -/
theorem platform_active_fatal_cex :
    (enemyStep initialPlayer 1 0 0 0 0 0 .PLAYING platformOn).state = .GAMEOVER ∧
      (enemyStep initialPlayer 1 0 0 0 0 0 .PLAYING platformOff).state = .PLAYING ∧
      (enemyStep initialPlayer 1 0 0 0 0 0 .PLAYING platformOff).keep = true := by
  have hmOn : moveEnemy initialPlayer 1 0 platformOn =
      { x := 180, y := 490, width := CAR_WIDTH * (3/2), height := 20
        type := .PLATFORM, speed := 10, timer := 1, active := true } := by
    simp [moveEnemy, platformOn, toggleTimer]
    norm_num
  have hmOff : moveEnemy initialPlayer 1 0 platformOff =
      { x := 180, y := 490, width := CAR_WIDTH * (3/2), height := 20
        type := .PLATFORM, speed := 10, timer := 1, active := false } := by
    simp [moveEnemy, platformOff, platformOn, toggleTimer]
    norm_num
  have hov : ∀ a : Bool, overlapsP initialPlayer 180 490 (CAR_WIDTH * (3/2)) 20 := by
    intro _
    norm_num [overlapsP, initialPlayer, CANVAS_WIDTH, CANVAS_HEIGHT, CAR_WIDTH, CAR_HEIGHT]
  refine ⟨?_, ?_, ?_⟩
  · unfold enemyStep
    rw [hmOn, if_pos (hov true)]
    norm_num [enemyPassBottom, CANVAS_HEIGHT]
    decide
  · unfold enemyStep
    rw [hmOff, if_pos (hov true)]
    norm_num
    decide
  · unfold enemyStep
    rw [hmOff, if_pos (hov true)]
    norm_num
    decide

/-- C9: an obstacle whose post-move y is past the bottom of the track,
with no overlap with the player this tick, is removed and awards +10
(doubled to +20 while the multiplier timer is positive) unless its kind
is oil slick or gravity field (those award nothing); a collectible whose
post-move y is past the bottom without being picked up is removed with
coins and all power-up timers unchanged. -/
theorem pass_bottom_scoring (pl : Player) (d b shield slide mult : ℚ)
    (score coins : ℕ) (st : GameState) (e : Enemy) (psh pbo pmu : ℚ) (p : PowerUp) :
    (¬ overlapsP pl (moveEnemy pl d b e).x (moveEnemy pl d b e).y
          (moveEnemy pl d b e).width (moveEnemy pl d b e).height →
        (moveEnemy pl d b e).y > CANVAS_HEIGHT →
        (enemyStep pl d b shield slide mult score st e).keep = false ∧
          (enemyStep pl d b shield slide mult score st e).state = st ∧
          (enemyStep pl d b shield slide mult score st e).shield = shield ∧
          (enemyStep pl d b shield slide mult score st e).slide = slide ∧
          ((moveEnemy pl d b e).type ≠ .OIL ∧ (moveEnemy pl d b e).type ≠ .GRAVITY →
            (enemyStep pl d b shield slide mult score st e).score
              = score + (if mult > 0 then 20 else 10)) ∧
          (¬ ((moveEnemy pl d b e).type ≠ .OIL ∧ (moveEnemy pl d b e).type ≠ .GRAVITY) →
            (enemyStep pl d b shield slide mult score st e).score = score)) ∧
      (¬ overlapsP pl p.x (p.y + p.speed) p.width p.height →
        p.y + p.speed > CANVAS_HEIGHT →
        (powerUpStep pl coins psh pbo pmu p).keep = false ∧
          (powerUpStep pl coins psh pbo pmu p).coins = coins ∧
          (powerUpStep pl coins psh pbo pmu p).shield = psh ∧
          (powerUpStep pl coins psh pbo pmu p).boost = pbo ∧
          (powerUpStep pl coins psh pbo pmu p).mult = pmu) := by
  constructor
  · intro hov hy
    unfold enemyStep
    rw [if_neg hov]
    unfold enemyPassBottom
    rw [if_pos hy]
    refine ⟨rfl, rfl, rfl, rfl, fun h => ?_, fun h => ?_⟩
    · rw [if_pos h]
      split_ifs <;> norm_num
    · rw [if_neg h]
  · intro hov hy
    unfold powerUpStep
    rw [if_neg hov]
    refine ⟨?_, rfl, rfl, rfl, rfl⟩
    simp only [decide_eq_false_iff_not, not_le]
    exact hy

/-- A standard car already past the bottom edge after its advance,
nowhere near the player horizontally. -/
def carPast : Enemy :=
  { x := 0, y := 600, width := CAR_WIDTH, height := CAR_HEIGHT
    type := .CAR, speed := 10 }

/-- A coin already past the bottom edge after its advance, nowhere near
the player horizontally. -/
def coinPast : PowerUp :=
  { x := 0, y := 600, width := 25, height := 25, type := .COIN, speed := 10 }

/-- C9 witness: with no multiplier, `carPast` is removed for +10 with the
run state and timers untouched, and `coinPast` is removed with coins and
timers untouched. -/
theorem pass_bottom_scoring_witness :
    ((enemyStep initialPlayer 1 0 0 0 0 3 .PLAYING carPast).keep = false ∧
        (enemyStep initialPlayer 1 0 0 0 0 3 .PLAYING carPast).score
          = 3 + (if (0:ℚ) > 0 then 20 else 10)) ∧
      ((powerUpStep initialPlayer 9 0 0 0 coinPast).keep = false ∧
        (powerUpStep initialPlayer 9 0 0 0 coinPast).coins = 9) := by
  have hm : moveEnemy initialPlayer 1 0 carPast =
      { x := 0, y := 610, width := CAR_WIDTH, height := CAR_HEIGHT
        type := .CAR, speed := 10 } := by
    simp [moveEnemy, carPast]
    norm_num
  have h := pass_bottom_scoring initialPlayer 1 0 0 0 0 3 9 .PLAYING carPast 0 0 0 coinPast
  have h1 := h.1
    (by rw [hm]
        norm_num [overlapsP, initialPlayer, CANVAS_WIDTH, CANVAS_HEIGHT,
          CAR_WIDTH, CAR_HEIGHT])
    (by rw [hm]
        norm_num [CANVAS_HEIGHT])
  have h2 := h.2
    (by norm_num [overlapsP, coinPast, initialPlayer, CANVAS_WIDTH, CANVAS_HEIGHT,
      CAR_WIDTH, CAR_HEIGHT])
    (by norm_num [coinPast, CANVAS_HEIGHT])
  exact ⟨⟨h1.1, h1.2.2.2.2.1 (by rw [hm] ; exact ⟨by decide, by decide⟩)⟩, ⟨h2.1, h2.2.1⟩⟩

end NeonVelocity
